import Mathlib

/-!
Verification of the 21cmFAST python wrapper (`src/py21cmmc/_21cmfast/wrapper.py`)
against its natural-language specification.

The wrapper is glue code around a foreign compiled simulation engine: parameter
structures with defaults and derived properties, output-box containers, and three
orchestration functions (`initial_conditions`, `perturb_field`, `ionize_box`) that
check an on-disk cache, fall back to the engine, optionally persist, and feed each
stage's output into the next.

Modelling conventions:
- Python floats are modelled as `ℚ`.  The only transcendental operation the claims
  touch, `10 ** x`, is modelled symbolically by the constructor `RVal.exp10`
  (`x ↦ 10^x` is injective on the reals, so equality/inequality of the symbolic
  form coincides with equality/inequality of the real values).
- numpy arrays are modelled as `List ℚ`; `np.zeros n` is `List.replicate n 0`.
- Python exceptions are modelled by `Except Exn`; `IOError` raised by a cache
  read, the explicit `ValueError`/`NotImplementedError` raises, and any other
  exception are distinguished by the `Exn` constructors.
- The base classes `StructWithDefaults` and `OutputStruct` live in the module
  `_utils`, which is not part of the excerpt; where their behaviour decides a
  claim it is modelled from the spec (each such definition carries a doc comment
  starting `Modelled from the spec:`).
- The foreign engine routines (`lib.ComputeInitialConditions` etc.) are black
  boxes; they are passed as function parameters, and the cache-read outcome of
  each `OutputStruct.read` call is passed as a `ReadResult` parameter.
-/

/-- Outcome of an `OutputStruct.read` call: either it succeeds and yields the
array data read from disk, or it raises `IOError` (file not found — a cache
miss), or it raises some other exception. -/
inductive ReadResult (δ : Type) where
  | ok (d : δ)
  | ioError
  | otherError
deriving DecidableEq

/-- Python exceptions relevant to the wrapper. -/
inductive Exn where
  | ioError
  | valueError
  | notImplementedError
  | other
deriving DecidableEq

/-- A real-number value produced by a parameter getter.  `lin q` is the plain
value `q`; `exp10 q` denotes `10 ** q` (Python float exponentiation), kept
symbolic because `x ↦ 10^x` is injective on ℝ. -/
inductive RVal where
  | lin (q : ℚ)
  | exp10 (q : ℚ)
deriving DecidableEq

-- ======================================================================================
-- PARAMETER STRUCTURES  (wrapper.py lines 16-251)
-- ======================================================================================

/-- `CosmoParams` stored state: the `_defaults_` keys.  `RANDOM_SEED_` models the
stored `_RANDOM_SEED` (default `None`); the remaining fields are plain floats.
Default values `SIGMA_8=0.82`, `hlittle=Planck15.h=0.6774`, `OMm=Planck15.Om0=0.3075`,
`OMb=Planck15.Ob0=0.0486`, `POWER_INDEX=0.97`. -/
structure CosmoParams where
  RANDOM_SEED_ : Option ℕ
  SIGMA_8 : ℚ
  hlittle : ℚ
  OMm : ℚ
  OMb : ℚ
  POWER_INDEX : ℚ
deriving DecidableEq

/-- The `_defaults_` dict of `CosmoParams` (Planck15 constants from astropy). -/
def CosmoParams.default : CosmoParams :=
  { RANDOM_SEED_ := none
    SIGMA_8 := 82/100
    hlittle := 6774/10000
    OMm := 3075/10000
    OMb := 486/10000
    POWER_INDEX := 97/100 }

/-- Range of `np.random.randint(1, 1e12)` (external numpy contract): an integer
drawn uniformly from `[1, 10^12)`. -/
def randintLow : ℕ := 1

/-- Exclusive upper bound of `np.random.randint(1, 1e12)`. -/
def randintHigh : ℕ := 10 ^ 12

/-- The `RANDOM_SEED` property of `CosmoParams`:

    while not self._RANDOM_SEED:
        self._RANDOM_SEED = int(np.random.randint(1, 1e12))
    return self._RANDOM_SEED

State-passing embedding: `s` is the stored `_RANDOM_SEED` (`none` models Python
`None`), `draw` is the value of the `np.random.randint(1, 1e12)` call.  Because
`randint(1, 1e12)` always returns a value ≥ 1 (truthy), the `while` body runs at
most once.  Returns the property value together with the updated stored state. -/
def CosmoParams.RANDOM_SEED_get (draw : ℕ) (s : Option ℕ) : ℕ × Option ℕ :=
  match s with
  | some v => if v ≠ 0 then (v, some v) else (draw, some draw)
  | none => (draw, some draw)

/-- The derived `OMl` property: `1 - self.OMm`. -/
def CosmoParams.OMl (c : CosmoParams) : ℚ := 1 - c.OMm

/-- `UserParams` stored state.  `DIM_` models the stored `_DIM`
(default `None`); `BOX_LEN=150.0`, `HII_DIM=100` are the other defaults. -/
structure UserParams where
  BOX_LEN : ℚ
  DIM_ : Option ℕ
  HII_DIM : ℕ
deriving DecidableEq

/-- The `_defaults_` dict of `UserParams`. -/
def UserParams.default : UserParams :=
  { BOX_LEN := 150, DIM_ := none, HII_DIM := 100 }

/-- The `DIM` property: `self._DIM or 4 * self.HII_DIM` (Python `or`, so a
stored `None` — and also a stored `0`, both falsy — yields `4 * HII_DIM`). -/
def UserParams.DIM (u : UserParams) : ℕ :=
  match u.DIM_ with
  | some d => if d ≠ 0 then d else 4 * u.HII_DIM
  | none => 4 * u.HII_DIM

/-- The `tot_fft_num_pixels` property: `self.DIM**3`. -/
def UserParams.tot_fft_num_pixels (u : UserParams) : ℕ := u.DIM ^ 3

/-- The `HII_tot_num_pixels` property: `self.HII_DIM**3`. -/
def UserParams.HII_tot_num_pixels (u : UserParams) : ℕ := u.HII_DIM ^ 3

/-- `AstroParams` stored state: `INHOMO_RECO` (constructor argument) plus the
`_defaults_` keys.  Fields with a trailing underscore model the stored
`_NAME` slots read back through a property; `Option` marks those whose default
is `None`. -/
structure AstroParams where
  INHOMO_RECO : Bool
  EFF_FACTOR_PL_INDEX : ℚ
  HII_EFF_FACTOR : ℚ
  R_BUBBLE_MAX_ : Option ℚ
  ION_Tvir_MIN_ : ℚ
  L_X_ : ℚ
  NU_X_THRESH_ : ℚ
  NU_X_BAND_MAX_ : ℚ
  NU_X_MAX_ : ℚ
  X_RAY_SPEC_INDEX : ℚ
  X_RAY_Tvir_MIN_ : Option ℚ
  X_RAY_Tvir_LOWERBOUND : ℚ
  X_RAY_Tvir_UPPERBOUND : ℚ
  F_STAR : ℚ
  t_STAR : ℚ
  N_RSD_STEPS : ℚ
  LOS_direction : ℤ
  Z_HEAT_MAX : ℚ
  ZPRIME_STEP_FACTOR : ℚ
deriving DecidableEq

/-- The `_defaults_` dict of `AstroParams` (with the `INHOMO_RECO` constructor
argument supplied explicitly). -/
def AstroParams.default (inhomo : Bool) : AstroParams :=
  { INHOMO_RECO := inhomo
    EFF_FACTOR_PL_INDEX := 0
    HII_EFF_FACTOR := 30
    R_BUBBLE_MAX_ := none
    ION_Tvir_MIN_ := 469897/100000
    L_X_ := 40
    NU_X_THRESH_ := 500
    NU_X_BAND_MAX_ := 2000
    NU_X_MAX_ := 10000
    X_RAY_SPEC_INDEX := 1
    X_RAY_Tvir_MIN_ := none
    X_RAY_Tvir_LOWERBOUND := 4
    X_RAY_Tvir_UPPERBOUND := 6
    F_STAR := 5/100
    t_STAR := 5/10
    N_RSD_STEPS := 20
    LOS_direction := 2
    Z_HEAT_MAX := 10
    ZPRIME_STEP_FACTOR := 102/100 }

/-- The `R_BUBBLE_MAX` property: `50.0 if INHOMO_RECO else 15.0` when the stored
value is falsy (`None` or `0`), otherwise the stored value. -/
def AstroParams.R_BUBBLE_MAX (a : AstroParams) : ℚ :=
  match a.R_BUBBLE_MAX_ with
  | some v => if v ≠ 0 then v else (if a.INHOMO_RECO then 50 else 15)
  | none => if a.INHOMO_RECO then 50 else 15

/-- The `ION_Tvir_MIN` property: `10 ** self._ION_Tvir_MIN`. -/
def AstroParams.ION_Tvir_MIN (a : AstroParams) : RVal := .exp10 a.ION_Tvir_MIN_

/-- The `L_X` property: `10 ** self._L_X`. -/
def AstroParams.L_X (a : AstroParams) : RVal := .exp10 a.L_X_

/-- The `X_RAY_Tvir_MIN` property:
`10 ** self._X_RAY_Tvir_MIN if self._X_RAY_Tvir_MIN else self.ION_Tvir_MIN`
(Python truthiness: a stored `None` — and also a stored `0.0` — selects the
`ION_Tvir_MIN` fallback). -/
def AstroParams.X_RAY_Tvir_MIN (a : AstroParams) : RVal :=
  match a.X_RAY_Tvir_MIN_ with
  | some v => if v ≠ 0 then .exp10 v else a.ION_Tvir_MIN
  | none => a.ION_Tvir_MIN

/-- `FlagOptions` state: the five `_defaults_` flags, plus `GenerateNewICs` and
`USE_TS_FLUCT`, which `_logic` reads but which are absent from `_defaults_`.
Modelled from the spec: the missing `StructWithDefaults` base (module `_utils`,
not in the excerpt) must make these attributes readable for default construction
to succeed, and the spec's default construction succeeds, so they default to
`False`. -/
structure FlagOptions where
  INCLUDE_ZETA_PL : Bool
  SUBCELL_RSD : Bool
  USE_FCOLL_IONISATION_TABLE : Bool
  SHORTEN_FCOLL : Bool
  INHOMO_RECO : Bool
  GenerateNewICs : Bool
  USE_TS_FLUCT : Bool
deriving DecidableEq

/-- The `_defaults_` dict of `FlagOptions` (all flags `False`), with the
extra-attribute flags `GenerateNewICs` and `USE_TS_FLUCT` also `False`. -/
def FlagOptions.default : FlagOptions :=
  { INCLUDE_ZETA_PL := false
    SUBCELL_RSD := false
    USE_FCOLL_IONISATION_TABLE := false
    SHORTEN_FCOLL := false
    INHOMO_RECO := false
    GenerateNewICs := false
    USE_TS_FLUCT := false }

/-- `FlagOptions._logic`: the four flag-combination checks, in source order.
Raises `ValueError` for new-ICs + interpolation tables, `NotImplementedError`
for Ts-fluctuations + zeta power law, `ValueError` for the f_coll ionisation
table + inhomogeneous recombinations, and `ValueError` for inhomogeneous
recombinations + Ts fluctuations. -/
def FlagOptions.logic_ (f : FlagOptions) : Except Exn Unit :=
  if f.GenerateNewICs && (f.USE_FCOLL_IONISATION_TABLE || f.SHORTEN_FCOLL) then
    .error .valueError
  else if f.USE_TS_FLUCT && f.INCLUDE_ZETA_PL then
    .error .notImplementedError
  else if f.USE_FCOLL_IONISATION_TABLE && f.INHOMO_RECO then
    .error .valueError
  else if f.INHOMO_RECO && f.USE_TS_FLUCT then
    .error .valueError
  else
    .ok ()

/-- Modelled from the spec: `StructWithDefaults` (module `_utils`, not in the
excerpt) validates flag combinations at construction time — "Parameter
validation raises on invalid flag/parameter combinations at construction
time" — so constructing a `FlagOptions` runs `_logic` and either raises or
yields the instance. -/
def FlagOptions.construct (f : FlagOptions) : Except Exn FlagOptions :=
  match f.logic_ with
  | .ok _ => .ok f
  | .error e => .error e

-- ======================================================================================
-- CACHE KEYS (Modelled from the spec; `StructWithDefaults`/`OutputStruct` hashing
-- lives in `_utils`, which is not in the excerpt)
-- ======================================================================================

/-- Modelled from the spec: the cache name/hash of a `CosmoParams` is a
deterministic function of its field values, with the random seed included
exactly when `match_seed` is set ("two parameter-set instances with identical
field values (optionally including the random seed) must hash/name to the same
cache entry"). -/
def CosmoParams.cacheKey (match_seed : Bool) (c : CosmoParams) :
    List ℚ × Option (Option ℕ) :=
  ([c.SIGMA_8, c.hlittle, c.OMm, c.OMb, c.POWER_INDEX],
   if match_seed then some c.RANDOM_SEED_ else none)

/-- Modelled from the spec: the cache name/hash of a `UserParams` is a
deterministic function of its field values. -/
def UserParams.cacheKey (u : UserParams) : ℚ × Option ℕ × ℕ :=
  (u.BOX_LEN, u.DIM_, u.HII_DIM)

/-- Modelled from the spec: the cache name/hash of an `AstroParams` is a
deterministic function of its field values. -/
def AstroParams.cacheKey (a : AstroParams) : AstroParams := a

/-- Modelled from the spec: the cache name/hash of a `FlagOptions` is a
deterministic function of its field values. -/
def FlagOptions.cacheKey (f : FlagOptions) : FlagOptions := f

-- ======================================================================================
-- OUTPUT STRUCTURES  (wrapper.py lines 255-300)
-- ======================================================================================

/-- `InitialConditions._init_boxes`, embedded as data: the list of
`setattr` assignments the method performs (attribute name, allocated zero
array), in source order, paired with the list of names the method returns.
Note the source returns the string `'lowre_vz_2LPT'` while the attribute it
sets is `lowres_vz_2LPT`. -/
def InitialConditions.init_boxes_ (u : UserParams) :
    List (String × List ℚ) × List String :=
  ([("lowres_density", List.replicate u.HII_tot_num_pixels 0),
    ("lowres_vz", List.replicate u.HII_tot_num_pixels 0),
    ("lowres_vz_2LPT", List.replicate u.HII_tot_num_pixels 0),
    ("hires_density", List.replicate u.tot_fft_num_pixels 0)],
   ["lowres_density", "lowres_vz", "lowre_vz_2LPT", "hires_density"])

-- ======================================================================================
-- OUTPUT-BOX OBJECTS AND ORCHESTRATION  (wrapper.py lines 255-571)
-- ======================================================================================

/-- The array payload of an `InitialConditions` object (the four boxes
allocated by `_init_boxes`). -/
structure ICData where
  lowres_density : List ℚ
  lowres_vz : List ℚ
  lowres_vz_2LPT : List ℚ
  hires_density : List ℚ
deriving DecidableEq

/-- An `InitialConditions` output object: the parameter sets it is tagged
with, the `filled` flag, and its array payload. -/
structure InitialConditions where
  user_params : UserParams
  cosmo_params : CosmoParams
  filled : Bool
  data : ICData
deriving DecidableEq

/-- `InitialConditions(user_params, cosmo_params)`: a fresh object.  Modelled
from the spec: `OutputStruct.__init__` (module `_utils`, not in the excerpt)
"allocates typed numeric arrays sized by grid dimensions" via `_init_boxes` and
starts unfilled. -/
def InitialConditions.new (u : UserParams) (c : CosmoParams) : InitialConditions :=
  { user_params := u, cosmo_params := c, filled := false
    data :=
      { lowres_density := List.replicate u.HII_tot_num_pixels 0
        lowres_vz := List.replicate u.HII_tot_num_pixels 0
        lowres_vz_2LPT := List.replicate u.HII_tot_num_pixels 0
        hires_density := List.replicate u.tot_fft_num_pixels 0 } }

/-- Modelled from the spec: a successful `OutputStruct.read` (module `_utils`,
not in the excerpt) populates the object's arrays from disk in place, making it
a "populated output object". -/
def InitialConditions.applyRead (b : InitialConditions) (d : ICData) : InitialConditions :=
  { b with data := d, filled := true }

/-- The array payload of a `PerturbedField` (the two boxes of its
`_init_boxes`). -/
structure PFData where
  density : List ℚ
  velocity : List ℚ
deriving DecidableEq

/-- A `PerturbedField` output object. -/
structure PerturbedField where
  user_params : UserParams
  cosmo_params : CosmoParams
  redshift : ℚ
  filled : Bool
  data : PFData
deriving DecidableEq

/-- `PerturbedField(user_params, cosmo_params, redshift)`: a fresh object
(arrays zero-allocated per its `_init_boxes`, unfilled). -/
def PerturbedField.new (u : UserParams) (c : CosmoParams) (z : ℚ) : PerturbedField :=
  { user_params := u, cosmo_params := c, redshift := z, filled := false
    data :=
      { density := List.replicate u.HII_tot_num_pixels 0
        velocity := List.replicate u.HII_tot_num_pixels 0 } }

/-- Modelled from the spec: a successful `OutputStruct.read` populates the
`PerturbedField` arrays in place. -/
def PerturbedField.applyRead (f : PerturbedField) (d : PFData) : PerturbedField :=
  { f with data := d, filled := true }

/-- An `IonizedBox` (or, when `spinTemp` is set, `TsBox`) output object; its
single `_init_boxes` array (`ionized_box` / `Ts_box`) is `data`. -/
structure IonizedBox where
  user_params : UserParams
  cosmo_params : CosmoParams
  redshift : ℚ
  astro_params : AstroParams
  flag_options : FlagOptions
  spinTemp : Bool
  filled : Bool
  data : List ℚ
deriving DecidableEq

/-- What one orchestration stage did: the object it returned, whether it
invoked its own foreign-engine routine, and whether it wrote its object. -/
structure StageTrace (β : Type) where
  box : β
  engineInvoked : Bool
  wrote : Bool
deriving DecidableEq

/-- `initial_conditions(user_params, cosmo_params, regenerate, write, ...)`
(wrapper.py 306-360).  `readIC` is the outcome of the `boxes.read` call
(`direc`, `fname` and `match_seed` only feed that call and are abstracted into
it); `engineIC` is the foreign `lib.ComputeInitialConditions`, producing array
data from the parameter structs. -/
def initial_conditions (up : UserParams) (cp : CosmoParams)
    (regenerate write : Bool) (readIC : ReadResult ICData)
    (engineIC : UserParams → CosmoParams → ICData) :
    Except Exn (StageTrace InitialConditions) :=
  let boxes := InitialConditions.new up cp
  let compute : Except Exn (StageTrace InitialConditions) :=
    .ok { box := { boxes with data := engineIC up cp, filled := true }
          engineInvoked := true, wrote := write }
  if regenerate then compute
  else
    match readIC with
    | .ok d => .ok { box := boxes.applyRead d, engineInvoked := false, wrote := false }
    | .ioError => compute
    | .otherError => .error .other

/-- The user/cosmo parameter resolution at the top of `perturb_field`
(wrapper.py 431-438): taken from `init_boxes` when given, else from the
arguments, else the defaults. -/
def resolveParams (init_boxes : Option InitialConditions)
    (up0 : Option UserParams) (cp0 : Option CosmoParams) : UserParams × CosmoParams :=
  match init_boxes with
  | some ib => (ib.user_params, ib.cosmo_params)
  | none => (up0.getD UserParams.default, cp0.getD CosmoParams.default)

/-- What a `perturb_field` call did: the returned field, whether it invoked
`initial_conditions`, the init-boxes object handed to
`lib.ComputePerturbField` (when that engine ran), whether the engine ran, and
whether it wrote its own object. -/
structure PerturbTrace where
  fields : PerturbedField
  icCalled : Bool
  engineInput : Option InitialConditions
  engineInvoked : Bool
  wrote : Bool
deriving DecidableEq

/-- `perturb_field(redshift, init_boxes, user_params, cosmo_params,
regenerate, write, ...)` (wrapper.py 363-467).  `readIC`/`engineIC` feed the
nested `initial_conditions` call (made when `init_boxes` is `None` or
unfilled); `readPF` is the outcome of the `fields.read` call and `enginePF`
the foreign `lib.ComputePerturbField`. -/
def perturb_field (redshift : ℚ) (init_boxes : Option InitialConditions)
    (up0 : Option UserParams) (cp0 : Option CosmoParams)
    (regenerate write : Bool)
    (readIC : ReadResult ICData) (engineIC : UserParams → CosmoParams → ICData)
    (readPF : ReadResult PFData) (enginePF : ℚ → InitialConditions → PFData) :
    Except Exn PerturbTrace :=
  let up := (resolveParams init_boxes up0 cp0).1
  let cp := (resolveParams init_boxes up0 cp0).2
  -- `if init_boxes is None or not init_boxes.filled:` recompute them
  let icStep : Except Exn (InitialConditions × Bool) :=
    match init_boxes with
    | some ib =>
      if ib.filled then .ok (ib, false)
      else
        match initial_conditions up cp regenerate write readIC engineIC with
        | .ok t => .ok (t.box, true)
        | .error e => .error e
    | none =>
      match initial_conditions up cp regenerate write readIC engineIC with
      | .ok t => .ok (t.box, true)
      | .error e => .error e
  match icStep with
  | .error e => .error e
  | .ok (ib, icCalled) =>
    let fields := PerturbedField.new up cp redshift
    let compute : Except Exn PerturbTrace :=
      .ok { fields := { fields with data := enginePF redshift ib, filled := true }
            icCalled := icCalled, engineInput := some ib
            engineInvoked := true, wrote := write }
    if regenerate then compute
    else
      match readPF with
      | .ok d =>
        .ok { fields := fields.applyRead d, icCalled := icCalled, engineInput := none
              engineInvoked := false, wrote := false }
      | .ioError => compute
      | .otherError => .error .other

/-- What an `ionize_box` call did: the returned box, whether it invoked
`perturb_field`, the perturbed field handed to the ionisation engine (when it
ran), whether the engine ran, whether it wrote its own object, and the
redshift the box was built at. -/
structure IonizeTrace where
  box : IonizedBox
  pfCalled : Bool
  engineInput : Option PerturbedField
  engineInvoked : Bool
  wrote : Bool
  redshiftUsed : ℚ
deriving DecidableEq

/-- The body of `ionize_box` after the redshift has been settled
(wrapper.py 534-571): obtain a filled perturbed field (recomputing via
`perturb_field` when absent or unfilled), build the `IonizedBox`/`TsBox`,
check the cache, else run `lib.ComputeIonizedBox` / `lib.ComputeTsBox`,
set `filled`, optionally write. -/
def ionize_core (astro_params : AstroParams) (flag_options : FlagOptions)
    (redshift : ℚ) (perturbed_field : Option PerturbedField)
    (init_boxes : Option InitialConditions)
    (cp0 : Option CosmoParams) (up0 : Option UserParams)
    (regenerate write : Bool)
    (readIC : ReadResult ICData) (engineIC : UserParams → CosmoParams → ICData)
    (readPF : ReadResult PFData) (enginePF : ℚ → InitialConditions → PFData)
    (readBox : ReadResult (List ℚ))
    (engineIon engineTs : ℚ → PerturbedField → List ℚ)
    (do_spin_temp : Bool) : Except Exn IonizeTrace :=
  -- `if perturbed_field is None or not perturbed_field.filled:` recompute it
  let pfStep : Except Exn (PerturbedField × Bool) :=
    match perturbed_field with
    | some p =>
      if p.filled then .ok (p, false)
      else
        match perturb_field redshift init_boxes up0 cp0 regenerate write
            readIC engineIC readPF enginePF with
        | .ok t => .ok (t.fields, true)
        | .error e => .error e
    | none =>
      match perturb_field redshift init_boxes up0 cp0 regenerate write
          readIC engineIC readPF enginePF with
      | .ok t => .ok (t.fields, true)
      | .error e => .error e
  match pfStep with
  | .error e => .error e
  | .ok (pf, pfCalled) =>
    let box : IonizedBox :=
      { user_params := pf.user_params, cosmo_params := pf.cosmo_params
        redshift := redshift, astro_params := astro_params
        flag_options := flag_options, spinTemp := do_spin_temp, filled := false
        data := List.replicate pf.user_params.HII_tot_num_pixels 0 }
    let compute : Except Exn IonizeTrace :=
      .ok { box := { box with
              data := if do_spin_temp then engineTs redshift pf else engineIon redshift pf
              filled := true }
            pfCalled := pfCalled, engineInput := some pf
            engineInvoked := true, wrote := write, redshiftUsed := redshift }
    if regenerate then compute
    else
      match readBox with
      | .ok d =>
        .ok { box := { box with data := d, filled := true }, pfCalled := pfCalled
              engineInput := none, engineInvoked := false, wrote := false
              redshiftUsed := redshift }
      | .ioError => compute
      | .otherError => .error .other

/-- `ionize_box(astro_params, flag_options, redshift, perturbed_field, ...)`
(wrapper.py 470-571): raises `ValueError` when neither `perturbed_field` nor
`redshift` is given; when `perturbed_field` is given its `redshift` overrides
the `redshift` argument; then proceeds as `ionize_core`. -/
def ionize_box (astro_params : AstroParams) (flag_options : FlagOptions)
    (redshift0 : Option ℚ) (perturbed_field : Option PerturbedField)
    (init_boxes : Option InitialConditions)
    (cp0 : Option CosmoParams) (up0 : Option UserParams)
    (regenerate write : Bool)
    (readIC : ReadResult ICData) (engineIC : UserParams → CosmoParams → ICData)
    (readPF : ReadResult PFData) (enginePF : ℚ → InitialConditions → PFData)
    (readBox : ReadResult (List ℚ))
    (engineIon engineTs : ℚ → PerturbedField → List ℚ)
    (do_spin_temp : Bool) : Except Exn IonizeTrace :=
  match perturbed_field, redshift0 with
  | none, none => .error .valueError
  | some pf0, _ =>
    ionize_core astro_params flag_options pf0.redshift (some pf0) init_boxes cp0 up0
      regenerate write readIC engineIC readPF enginePF readBox engineIon engineTs
      do_spin_temp
  | none, some z =>
    ionize_core astro_params flag_options z none init_boxes cp0 up0
      regenerate write readIC engineIC readPF enginePF readBox engineIon engineTs
      do_spin_temp

-- ======================================================================================
-- CONCRETE FIXTURES (small instances used by witness theorems)
-- ======================================================================================

/-- A tiny `UserParams` (1-cell low-res grid) for concrete evaluations. -/
def testUserParams : UserParams := { BOX_LEN := 1, DIM_ := none, HII_DIM := 1 }

/-- Concrete on-disk array data for an `InitialConditions` read. -/
def testICData : ICData :=
  { lowres_density := [1], lowres_vz := [2], lowres_vz_2LPT := [3], hires_density := [4] }

/-- A concrete stand-in for `lib.ComputeInitialConditions`. -/
def testEngineIC : UserParams → CosmoParams → ICData :=
  fun _ _ => { lowres_density := [5], lowres_vz := [6], lowres_vz_2LPT := [7], hires_density := [8] }

/-- Concrete on-disk array data for a `PerturbedField` read. -/
def testPFData : PFData := { density := [9], velocity := [10] }

/-- A concrete stand-in for `lib.ComputePerturbField`. -/
def testEnginePF : ℚ → InitialConditions → PFData :=
  fun _ _ => { density := [11], velocity := [12] }

/-- A concrete stand-in for `lib.ComputeIonizedBox`. -/
def testEngineIon : ℚ → PerturbedField → List ℚ := fun _ _ => [13]

/-- A concrete stand-in for `lib.ComputeTsBox`. -/
def testEngineTs : ℚ → PerturbedField → List ℚ := fun _ _ => [14]

/-- A concrete already-filled `PerturbedField` at redshift 7. -/
def testPerturbedField : PerturbedField :=
  { user_params := testUserParams, cosmo_params := CosmoParams.default
    redshift := 7, filled := true, data := testPFData }

-- ======================================================================================
-- HELPER LEMMAS about the orchestration functions
-- ======================================================================================

/-- Any successful `initial_conditions` run returns a filled object. -/
lemma ic_run_filled (up : UserParams) (cp : CosmoParams) (regen write : Bool)
    (readIC : ReadResult ICData) (eIC : UserParams → CosmoParams → ICData)
    (t : StageTrace InitialConditions)
    (h : initial_conditions up cp regen write readIC eIC = .ok t) :
    t.box.filled = true := by
  cases regen <;> cases readIC <;>
    simp only [initial_conditions, InitialConditions.applyRead] at h <;>
    (try cases h) <;> rfl

/-- `initial_conditions` succeeds whenever its read does not raise a
non-`IOError` exception, and the result is filled. -/
lemma ic_run_ok (up : UserParams) (cp : CosmoParams) (regen write : Bool)
    (readIC : ReadResult ICData) (eIC : UserParams → CosmoParams → ICData)
    (hIC : readIC ≠ .otherError) :
    ∃ t, initial_conditions up cp regen write readIC eIC = .ok t ∧
      t.box.filled = true := by
  cases regen <;> cases readIC <;>
    first
      | exact absurd rfl hIC
      | exact ⟨_, rfl, rfl⟩

/-- The only exception `initial_conditions` can propagate is a non-`IOError`
read failure. -/
lemma ic_run_error (up : UserParams) (cp : CosmoParams) (regen write : Bool)
    (readIC : ReadResult ICData) (eIC : UserParams → CosmoParams → ICData)
    (e : Exn) (h : initial_conditions up cp regen write readIC eIC = .error e) :
    e = .other ∧ readIC = .otherError := by
  cases regen <;> cases readIC <;>
    simp only [initial_conditions, InitialConditions.applyRead] at h <;>
    (try cases h) <;> exact ⟨rfl, rfl⟩

/-- `perturb_field` succeeds whenever neither read raises a non-`IOError`
exception, and the resulting field is filled. -/
lemma pf_run_ok (z : ℚ) (ib? : Option InitialConditions)
    (up0 : Option UserParams) (cp0 : Option CosmoParams) (regen write : Bool)
    (readIC : ReadResult ICData) (eIC : UserParams → CosmoParams → ICData)
    (readPF : ReadResult PFData) (ePF : ℚ → InitialConditions → PFData)
    (hIC : readIC ≠ .otherError) (hPF : readPF ≠ .otherError) :
    ∃ t, perturb_field z ib? up0 cp0 regen write readIC eIC readPF ePF = .ok t ∧
      t.fields.filled = true := by
  obtain ⟨tic, htic, -⟩ := ic_run_ok (resolveParams ib? up0 cp0).1
    (resolveParams ib? up0 cp0).2 regen write readIC eIC hIC
  rcases ib? with - | ib
  · cases regen <;> cases readPF <;>
      first
        | exact absurd rfl hPF
        | (simp only [perturb_field, htic, PerturbedField.applyRead]; exact ⟨_, rfl, rfl⟩)
  · rcases hf : ib.filled <;>
      cases regen <;> cases readPF <;>
      first
        | exact absurd rfl hPF
        | (simp only [perturb_field, htic, hf, PerturbedField.applyRead,
            Bool.false_eq_true, if_false, if_true]; exact ⟨_, rfl, rfl⟩)

/-- The only exception `perturb_field` can propagate is a non-`IOError` read
failure (its own read, or the nested `initial_conditions` read). -/
lemma pf_run_error (z : ℚ) (ib? : Option InitialConditions)
    (up0 : Option UserParams) (cp0 : Option CosmoParams) (regen write : Bool)
    (readIC : ReadResult ICData) (eIC : UserParams → CosmoParams → ICData)
    (readPF : ReadResult PFData) (ePF : ℚ → InitialConditions → PFData)
    (e : Exn)
    (h : perturb_field z ib? up0 cp0 regen write readIC eIC readPF ePF = .error e) :
    e = .other := by
  rcases ib? with - | ib
  · rcases hic : initial_conditions (resolveParams none up0 cp0).1
      (resolveParams none up0 cp0).2 regen write readIC eIC with e' | tic
    · obtain ⟨he, -⟩ := ic_run_error _ _ _ _ _ _ _ hic
      cases regen <;> cases readPF <;>
        simp only [perturb_field, hic, PerturbedField.applyRead] at h <;>
        (try cases h) <;> exact he
    · cases regen <;> cases readPF <;>
        simp only [perturb_field, hic, PerturbedField.applyRead] at h <;>
        (try cases h) <;> rfl
  · rcases hf : ib.filled
    · rcases hic : initial_conditions (resolveParams (some ib) up0 cp0).1
        (resolveParams (some ib) up0 cp0).2 regen write readIC eIC with e' | tic
      · obtain ⟨he, -⟩ := ic_run_error _ _ _ _ _ _ _ hic
        cases regen <;> cases readPF <;>
          simp only [perturb_field, hic, hf, Bool.false_eq_true, if_false,
            PerturbedField.applyRead] at h <;>
          (try cases h) <;> exact he
      · cases regen <;> cases readPF <;>
          simp only [perturb_field, hic, hf, Bool.false_eq_true, if_false,
            PerturbedField.applyRead] at h <;>
          (try cases h) <;> rfl
    · cases regen <;> cases readPF <;>
        simp only [perturb_field, hf, if_true, PerturbedField.applyRead] at h <;>
        (try cases h) <;> rfl

/-- The only exception `ionize_core` can propagate is a non-`IOError` read
failure somewhere in the pipeline: in particular it never raises `ValueError`. -/
lemma ion_core_error (ap : AstroParams) (fo : FlagOptions) (z : ℚ)
    (pf? : Option PerturbedField) (ib? : Option InitialConditions)
    (cp0 : Option CosmoParams) (up0 : Option UserParams) (regen write : Bool)
    (readIC : ReadResult ICData) (eIC : UserParams → CosmoParams → ICData)
    (readPF : ReadResult PFData) (ePF : ℚ → InitialConditions → PFData)
    (readBox : ReadResult (List ℚ)) (eI eT : ℚ → PerturbedField → List ℚ)
    (dst : Bool) (e : Exn)
    (h : ionize_core ap fo z pf? ib? cp0 up0 regen write readIC eIC readPF ePF
      readBox eI eT dst = .error e) :
    e = .other := by
  rcases pf? with - | p
  · rcases hpf : perturb_field z ib? up0 cp0 regen write readIC eIC readPF ePF with e' | t
    · have he := pf_run_error _ _ _ _ _ _ _ _ _ _ _ hpf
      cases regen <;> cases readBox <;>
        simp only [ionize_core, hpf] at h <;> (try cases h) <;> exact he
    · cases regen <;> cases readBox <;>
        simp only [ionize_core, hpf] at h <;> (try cases h) <;> rfl
  · rcases hf : p.filled
    · rcases hpf : perturb_field z ib? up0 cp0 regen write readIC eIC readPF ePF with e' | t
      · have he := pf_run_error _ _ _ _ _ _ _ _ _ _ _ hpf
        cases regen <;> cases readBox <;>
          simp only [ionize_core, hf, Bool.false_eq_true, if_false, hpf] at h <;>
          (try cases h) <;> exact he
      · cases regen <;> cases readBox <;>
          simp only [ionize_core, hf, Bool.false_eq_true, if_false, hpf] at h <;>
          (try cases h) <;> rfl
    · cases regen <;> cases readBox <;>
        simp only [ionize_core, hf, if_true] at h <;> (try cases h) <;> rfl

/-- Every successful `ionize_core` run is stamped with the redshift it was
entered with: both the trace and the returned box carry it. -/
lemma ion_core_redshift (ap : AstroParams) (fo : FlagOptions) (z : ℚ)
    (pf? : Option PerturbedField) (ib? : Option InitialConditions)
    (cp0 : Option CosmoParams) (up0 : Option UserParams) (regen write : Bool)
    (readIC : ReadResult ICData) (eIC : UserParams → CosmoParams → ICData)
    (readPF : ReadResult PFData) (ePF : ℚ → InitialConditions → PFData)
    (readBox : ReadResult (List ℚ)) (eI eT : ℚ → PerturbedField → List ℚ)
    (dst : Bool) (r : IonizeTrace)
    (h : ionize_core ap fo z pf? ib? cp0 up0 regen write readIC eIC readPF ePF
      readBox eI eT dst = .ok r) :
    r.redshiftUsed = z ∧ r.box.redshift = z := by
  rcases pf? with - | p
  · rcases hpf : perturb_field z ib? up0 cp0 regen write readIC eIC readPF ePF with e' | t
    · cases regen <;> cases readBox <;>
        simp only [ionize_core, hpf] at h <;> cases h
    · cases regen <;> cases readBox <;>
        simp only [ionize_core, hpf] at h <;> (try cases h) <;> exact ⟨rfl, rfl⟩
  · rcases hf : p.filled
    · rcases hpf : perturb_field z ib? up0 cp0 regen write readIC eIC readPF ePF with e' | t
      · cases regen <;> cases readBox <;>
          simp only [ionize_core, hf, Bool.false_eq_true, if_false, hpf] at h <;> cases h
      · cases regen <;> cases readBox <;>
          simp only [ionize_core, hf, Bool.false_eq_true, if_false, hpf] at h <;>
          (try cases h) <;> exact ⟨rfl, rfl⟩
    · cases regen <;> cases readBox <;>
        simp only [ionize_core, hf, if_true] at h <;> (try cases h) <;> exact ⟨rfl, rfl⟩

/-- Any successful `perturb_field` run returns a filled field. -/
lemma pf_run_filled (z : ℚ) (ib? : Option InitialConditions)
    (up0 : Option UserParams) (cp0 : Option CosmoParams) (regen write : Bool)
    (readIC : ReadResult ICData) (eIC : UserParams → CosmoParams → ICData)
    (readPF : ReadResult PFData) (ePF : ℚ → InitialConditions → PFData)
    (t : PerturbTrace)
    (h : perturb_field z ib? up0 cp0 regen write readIC eIC readPF ePF = .ok t) :
    t.fields.filled = true := by
  rcases ib? with - | ib
  · rcases hic : initial_conditions (resolveParams none up0 cp0).1
      (resolveParams none up0 cp0).2 regen write readIC eIC with e' | tic
    · cases regen <;> cases readPF <;>
        simp only [perturb_field, hic] at h <;> cases h
    · cases regen <;> cases readPF <;>
        simp only [perturb_field, hic, PerturbedField.applyRead] at h <;>
        (try cases h) <;> rfl
  · rcases hf : ib.filled
    · rcases hic : initial_conditions (resolveParams (some ib) up0 cp0).1
        (resolveParams (some ib) up0 cp0).2 regen write readIC eIC with e' | tic
      · cases regen <;> cases readPF <;>
          simp only [perturb_field, hic, hf, Bool.false_eq_true, if_false] at h <;> cases h
      · cases regen <;> cases readPF <;>
          simp only [perturb_field, hic, hf, Bool.false_eq_true, if_false,
            PerturbedField.applyRead] at h <;>
          (try cases h) <;> rfl
    · cases regen <;> cases readPF <;>
        simp only [perturb_field, hf, if_true, PerturbedField.applyRead] at h <;>
        (try cases h) <;> rfl

-- ======================================================================================
-- CLAIM C3 — cache identity invariant
-- ======================================================================================

/-- **C3.** Two parameter-set instances of the same class with identical field
values (the random seed matched or ignored per `match_seed`) compute the same
cache key, so a box computed from one is found by a lookup keyed by the other. -/
theorem C3_cache_identity :
    (∀ (ms : Bool) (c₁ c₂ : CosmoParams),
      c₁.SIGMA_8 = c₂.SIGMA_8 → c₁.hlittle = c₂.hlittle → c₁.OMm = c₂.OMm →
      c₁.OMb = c₂.OMb → c₁.POWER_INDEX = c₂.POWER_INDEX →
      (ms = true → c₁.RANDOM_SEED_ = c₂.RANDOM_SEED_) →
      c₁.cacheKey ms = c₂.cacheKey ms) ∧
    (∀ u₁ u₂ : UserParams, u₁.BOX_LEN = u₂.BOX_LEN → u₁.DIM_ = u₂.DIM_ →
      u₁.HII_DIM = u₂.HII_DIM → u₁.cacheKey = u₂.cacheKey) ∧
    (∀ a₁ a₂ : AstroParams, a₁ = a₂ → a₁.cacheKey = a₂.cacheKey) ∧
    (∀ f₁ f₂ : FlagOptions, f₁ = f₂ → f₁.cacheKey = f₂.cacheKey) := by
  refine ⟨?_, ?_, ?_, ?_⟩
  · intro ms c₁ c₂ h1 h2 h3 h4 h5 hseed
    cases ms with
    | false => simp [CosmoParams.cacheKey, h1, h2, h3, h4, h5]
    | true => simp [CosmoParams.cacheKey, h1, h2, h3, h4, h5, hseed rfl]
  · intro u₁ u₂ h1 h2 h3
    simp [UserParams.cacheKey, h1, h2, h3]
  · intro a₁ a₂ h; rw [h]
  · intro f₁ f₂ h; rw [h]

/-- Witness for C3: two `CosmoParams` that differ only in the stored random
seed get the same cache key when `match_seed = False`. -/
theorem C3_cache_identity_witness :
    CosmoParams.cacheKey false { CosmoParams.default with RANDOM_SEED_ := some 7 } =
      CosmoParams.cacheKey false { CosmoParams.default with RANDOM_SEED_ := some 8 } :=
  C3_cache_identity.1 false _ _ rfl rfl rfl rfl rfl (by simp)

-- ======================================================================================
-- CLAIM C4 — FlagOptions validation at construction
-- ======================================================================================

/-- **C4.** Constructing a `FlagOptions` with an invalid flag combination raises
at construction time (any combination `_logic` rejects makes construction raise
that error); in particular `USE_FCOLL_IONISATION_TABLE = INHOMO_RECO = True`
raises `ValueError`, and the all-default instance constructs successfully. -/
theorem C4_flagoptions_validation :
    (∀ (f : FlagOptions) (e : Exn), f.logic_ = .error e → f.construct = .error e) ∧
    FlagOptions.construct
      { FlagOptions.default with USE_FCOLL_IONISATION_TABLE := true, INHOMO_RECO := true } =
      .error .valueError ∧
    FlagOptions.construct FlagOptions.default = .ok FlagOptions.default := by
  refine ⟨?_, rfl, rfl⟩
  intro f e h
  simp [FlagOptions.construct, h]

/-- Witness for C4: the invalid-combination instance is rejected by `_logic`
with a `ValueError`, and construction raises exactly that error. -/
theorem C4_flagoptions_validation_witness :
    FlagOptions.construct
      { FlagOptions.default with USE_FCOLL_IONISATION_TABLE := true, INHOMO_RECO := true } =
      .error .valueError :=
  C4_flagoptions_validation.1
    { FlagOptions.default with USE_FCOLL_IONISATION_TABLE := true, INHOMO_RECO := true }
    .valueError rfl

-- ======================================================================================
-- CLAIM C6 — derived grid dimensions and allocated array sizes
-- ======================================================================================

/-- **C6.** Without an explicit `DIM`, the derived `DIM` equals `4 * HII_DIM`;
`tot_fft_num_pixels = DIM³` and `HII_tot_num_pixels = HII_DIM³`; and the arrays
allocated by `InitialConditions._init_boxes` have exactly these lengths
(`HII_DIM³` for the three low-res boxes, `DIM³` for `hires_density`). -/
theorem C6_derived_dims (u : UserParams) :
    (u.DIM_ = none → u.DIM = 4 * u.HII_DIM) ∧
    u.tot_fft_num_pixels = u.DIM ^ 3 ∧
    u.HII_tot_num_pixels = u.HII_DIM ^ 3 ∧
    (InitialConditions.init_boxes_ u).1.map (fun p => (p.1, p.2.length)) =
      [("lowres_density", u.HII_DIM ^ 3), ("lowres_vz", u.HII_DIM ^ 3),
       ("lowres_vz_2LPT", u.HII_DIM ^ 3), ("hires_density", u.DIM ^ 3)] := by
  refine ⟨fun h => ?_, rfl, rfl, ?_⟩
  · simp [UserParams.DIM, h]
  · simp [InitialConditions.init_boxes_, UserParams.HII_tot_num_pixels,
      UserParams.tot_fft_num_pixels]

/-- Witness for C6: the default `UserParams` (no explicit `DIM`) has
`DIM = 400 = 4 * 100` and the allocated boxes have lengths `100³` and `400³`. -/
theorem C6_derived_dims_witness :
    UserParams.default.DIM_ = none ∧ UserParams.default.DIM = 4 * UserParams.default.HII_DIM :=
  ⟨rfl, (C6_derived_dims UserParams.default).1 rfl⟩

-- ======================================================================================
-- CLAIM C7 — logarithmic astrophysical parameters
-- ======================================================================================

/-- **C7 counterexample.** The claim "reading `X_RAY_Tvir_MIN` returns 10 raised
to its stored value when one was supplied" fails when the supplied value is
`0.0`: Python truthiness sends a stored `0.0` to the `ION_Tvir_MIN` fallback
(`10^4.69897`), not to `10^0`. -/
theorem C7_log_params_counterexample :
    ({ AstroParams.default false with X_RAY_Tvir_MIN_ := some 0 } :
      AstroParams).X_RAY_Tvir_MIN ≠ RVal.exp10 0 := by
  simp [AstroParams.X_RAY_Tvir_MIN, AstroParams.ION_Tvir_MIN, AstroParams.default]

/-- **C7 (amended).** `ION_Tvir_MIN` and `L_X` read as 10 raised to their stored
values; `X_RAY_Tvir_MIN` reads as 10 raised to its stored value when a truthy
(non-`None`, nonzero) value was supplied, and otherwise returns the already
exponentiated `ION_Tvir_MIN`. -/
theorem C7_log_params (a : AstroParams) :
    a.ION_Tvir_MIN = RVal.exp10 a.ION_Tvir_MIN_ ∧
    a.L_X = RVal.exp10 a.L_X_ ∧
    (∀ v : ℚ, a.X_RAY_Tvir_MIN_ = some v → v ≠ 0 → a.X_RAY_Tvir_MIN = RVal.exp10 v) ∧
    ((a.X_RAY_Tvir_MIN_ = none ∨ a.X_RAY_Tvir_MIN_ = some 0) →
      a.X_RAY_Tvir_MIN = a.ION_Tvir_MIN) := by
  refine ⟨rfl, rfl, ?_, ?_⟩
  · intro v hv hne
    simp [AstroParams.X_RAY_Tvir_MIN, hv, hne]
  · rintro (h | h) <;> simp [AstroParams.X_RAY_Tvir_MIN, h]

/-- Witness for C7: on defaults with `X_RAY_Tvir_MIN` supplied as `5`, the
property reads `10^5`; with it left `None`, it reads `ION_Tvir_MIN = 10^4.69897`. -/
theorem C7_log_params_witness :
    ({ AstroParams.default false with X_RAY_Tvir_MIN_ := some 5 } :
      AstroParams).X_RAY_Tvir_MIN = RVal.exp10 5 ∧
    (AstroParams.default false).X_RAY_Tvir_MIN = (AstroParams.default false).ION_Tvir_MIN :=
  ⟨(C7_log_params _).2.2.1 5 rfl (by norm_num),
   (C7_log_params _).2.2.2 (Or.inl rfl)⟩

-- ======================================================================================
-- CLAIM C9 — _init_boxes name list vs allocated attributes
-- ======================================================================================

/-- **C9 (code bug).** `InitialConditions._init_boxes` sets the attribute
`lowres_vz_2LPT` but returns the misspelled name `'lowre_vz_2LPT'`: the
returned name `'lowre_vz_2LPT'` is not an attribute the method set, and the
attribute `lowres_vz_2LPT` it did set is not in the returned list.  Evaluated
at the default `UserParams`. -/
theorem C9_init_boxes_name_mismatch :
    "lowre_vz_2LPT" ∈ (InitialConditions.init_boxes_ UserParams.default).2 ∧
    "lowre_vz_2LPT" ∉
      (InitialConditions.init_boxes_ UserParams.default).1.map Prod.fst ∧
    "lowres_vz_2LPT" ∈
      (InitialConditions.init_boxes_ UserParams.default).1.map Prod.fst ∧
    "lowres_vz_2LPT" ∉ (InitialConditions.init_boxes_ UserParams.default).2 := by
  refine ⟨by simp [InitialConditions.init_boxes_], ?_, ?_, ?_⟩
  · simp [InitialConditions.init_boxes_]
  · simp [InitialConditions.init_boxes_]
  · simp [InitialConditions.init_boxes_]

-- ======================================================================================
-- CLAIM C10 — lazy random seed
-- ======================================================================================

/-- **C10.** With `RANDOM_SEED` constructed as `None`, the first read of the
`RANDOM_SEED` property stores the `np.random.randint(1, 1e12)` draw — an
integer in `[1, 10^12 - 1]` — and every later read returns that same stored
integer; once read the stored seed is neither `None` nor zero. -/
theorem C10_random_seed (draw : ℕ)
    (hlo : randintLow ≤ draw) (hhi : draw < randintHigh) :
    (CosmoParams.RANDOM_SEED_get draw none).1 = draw ∧
    (CosmoParams.RANDOM_SEED_get draw none).2 = some draw ∧
    1 ≤ draw ∧ draw ≤ 10 ^ 12 - 1 ∧
    (∀ draw₂ : ℕ,
      CosmoParams.RANDOM_SEED_get draw₂ (CosmoParams.RANDOM_SEED_get draw none).2 =
        (draw, some draw)) ∧
    (CosmoParams.RANDOM_SEED_get draw none).2 ≠ none ∧
    (CosmoParams.RANDOM_SEED_get draw none).2 ≠ some 0 := by
  have hd : draw ≠ 0 := by
    have : 1 ≤ draw := hlo
    omega
  refine ⟨rfl, rfl, hlo, ?_, ?_, ?_, ?_⟩
  · have : draw < 10 ^ 12 := hhi
    omega
  · intro draw₂
    simp [CosmoParams.RANDOM_SEED_get, hd]
  · simp [CosmoParams.RANDOM_SEED_get]
  · simp [CosmoParams.RANDOM_SEED_get, hd]

/-- Witness for C10: with the concrete draw `42`, the first read stores `42`
and a second read (with a different pending draw `99`) still returns `42`. -/
theorem C10_random_seed_witness :
    (CosmoParams.RANDOM_SEED_get 42 none).1 = 42 ∧
    (∀ draw₂ : ℕ,
      CosmoParams.RANDOM_SEED_get draw₂ (CosmoParams.RANDOM_SEED_get 42 none).2 =
        (42, some 42)) :=
  ⟨(C10_random_seed 42 (by decide) (by norm_num [randintHigh])).1,
   (C10_random_seed 42 (by decide) (by norm_num [randintHigh])).2.2.2.2.1⟩

-- ======================================================================================
-- CLAIM C1 — cache read-through / engine fallback / write-through
-- ======================================================================================

/-- **C1.** With `regenerate=False`, each orchestration function behaves as:
if the cache read of its output object succeeds, it returns that (read-in)
object without invoking its foreign-engine routine and without writing it;
on a cache miss (`IOError`) it invokes the engine routine, sets the object's
`filled` flag to `True`, writes the object exactly when `write=True`, and
returns it.  (`readIC ≠ otherError` / `readPF ≠ otherError` exclude non-IOError
read exceptions in the upstream stages a later stage may have to run;
`hz` excludes the `ValueError` precondition of `ionize_box`.) -/
theorem C1_orchestration_cache_flow
    (up : UserParams) (cp : CosmoParams) (write : Bool) (dic : ICData)
    (eIC : UserParams → CosmoParams → ICData)
    (z : ℚ) (ib? : Option InitialConditions) (up0 : Option UserParams)
    (cp0 : Option CosmoParams) (dpf : PFData) (readIC : ReadResult ICData)
    (ePF : ℚ → InitialConditions → PFData)
    (ap : AstroParams) (fo : FlagOptions) (z0 : Option ℚ)
    (pf? : Option PerturbedField) (readPF : ReadResult PFData)
    (dbox : List ℚ) (eI eT : ℚ → PerturbedField → List ℚ) (dst : Bool)
    (hIC : readIC ≠ .otherError) (hPF : readPF ≠ .otherError)
    (hz : ¬(pf? = none ∧ z0 = none)) :
    (initial_conditions up cp false write (.ok dic) eIC =
      .ok { box := (InitialConditions.new up cp).applyRead dic
            engineInvoked := false, wrote := false }) ∧
    (initial_conditions up cp false write .ioError eIC =
      .ok { box := { InitialConditions.new up cp with data := eIC up cp, filled := true }
            engineInvoked := true, wrote := write }) ∧
    (∃ c, perturb_field z ib? up0 cp0 false write readIC eIC (.ok dpf) ePF =
      .ok { fields := (PerturbedField.new (resolveParams ib? up0 cp0).1
              (resolveParams ib? up0 cp0).2 z).applyRead dpf
            icCalled := c, engineInput := none, engineInvoked := false, wrote := false }) ∧
    (∃ t, perturb_field z ib? up0 cp0 false write readIC eIC .ioError ePF = .ok t ∧
      t.engineInvoked = true ∧ t.fields.filled = true ∧ t.wrote = write) ∧
    (∃ t, ionize_box ap fo z0 pf? ib? cp0 up0 false write readIC eIC readPF ePF
        (.ok dbox) eI eT dst = .ok t ∧
      t.engineInvoked = false ∧ t.wrote = false ∧ t.box.data = dbox ∧
      t.box.filled = true) ∧
    (∃ t, ionize_box ap fo z0 pf? ib? cp0 up0 false write readIC eIC readPF ePF
        .ioError eI eT dst = .ok t ∧
      t.engineInvoked = true ∧ t.box.filled = true ∧ t.wrote = write) := by
  obtain ⟨tic, htic, -⟩ := ic_run_ok (resolveParams ib? up0 cp0).1
    (resolveParams ib? up0 cp0).2 false write readIC eIC hIC
  refine ⟨rfl, rfl, ?_, ?_, ?_, ?_⟩
  · rcases ib? with - | ib
    · simp only [perturb_field, htic]
      exact ⟨true, rfl⟩
    · rcases hf : ib.filled
      · simp only [perturb_field, htic, hf, Bool.false_eq_true, if_false]
        exact ⟨true, rfl⟩
      · simp only [perturb_field, hf, if_true]
        exact ⟨false, rfl⟩
  · rcases ib? with - | ib
    · simp only [perturb_field, htic]
      exact ⟨_, rfl, rfl, rfl, rfl⟩
    · rcases hf : ib.filled
      · simp only [perturb_field, htic, hf, Bool.false_eq_true, if_false]
        exact ⟨_, rfl, rfl, rfl, rfl⟩
      · simp only [perturb_field, hf, if_true]
        exact ⟨_, rfl, rfl, rfl, rfl⟩
  · rcases pf? with - | p
    · rcases z0 with - | zz
      · exact absurd ⟨rfl, rfl⟩ hz
      · obtain ⟨t, ht, -⟩ := pf_run_ok zz ib? up0 cp0 false write readIC eIC readPF ePF hIC hPF
        simp only [ionize_box, ionize_core, ht]
        exact ⟨_, rfl, rfl, rfl, rfl, rfl⟩
    · rcases hf : p.filled
      · obtain ⟨t, ht, -⟩ := pf_run_ok p.redshift ib? up0 cp0 false write readIC eIC
          readPF ePF hIC hPF
        simp only [ionize_box, ionize_core, hf, Bool.false_eq_true, if_false, ht]
        exact ⟨_, rfl, rfl, rfl, rfl, rfl⟩
      · simp only [ionize_box, ionize_core, hf, if_true]
        exact ⟨_, rfl, rfl, rfl, rfl, rfl⟩
  · rcases pf? with - | p
    · rcases z0 with - | zz
      · exact absurd ⟨rfl, rfl⟩ hz
      · obtain ⟨t, ht, -⟩ := pf_run_ok zz ib? up0 cp0 false write readIC eIC readPF ePF hIC hPF
        simp only [ionize_box, ionize_core, ht]
        exact ⟨_, rfl, rfl, rfl, rfl⟩
    · rcases hf : p.filled
      · obtain ⟨t, ht, -⟩ := pf_run_ok p.redshift ib? up0 cp0 false write readIC eIC
          readPF ePF hIC hPF
        simp only [ionize_box, ionize_core, hf, Bool.false_eq_true, if_false, ht]
        exact ⟨_, rfl, rfl, rfl, rfl⟩
      · simp only [ionize_box, ionize_core, hf, if_true]
        exact ⟨_, rfl, rfl, rfl, rfl⟩

/-- Witness for C1: on a 1-cell grid with concrete read data and engines, a
successful cache read makes `initial_conditions` return the read-in object
with the engine not invoked and nothing written. -/
theorem C1_orchestration_cache_flow_witness :
    (ReadResult.ok testICData ≠ ReadResult.otherError) ∧
    initial_conditions testUserParams CosmoParams.default false true
        (.ok testICData) testEngineIC =
      .ok { box := (InitialConditions.new testUserParams CosmoParams.default).applyRead
              testICData
            engineInvoked := false, wrote := false } :=
  ⟨by decide,
   (C1_orchestration_cache_flow testUserParams CosmoParams.default true testICData
      testEngineIC 7 none none none testPFData (.ok testICData) testEnginePF
      (AstroParams.default false) FlagOptions.default (some 7) none (.ok testPFData)
      [13] testEngineIon testEngineTs false
      (by decide) (by decide) (by decide)).1⟩

-- ======================================================================================
-- CLAIM C2 — IOError is a cache miss, caught and never propagated
-- ======================================================================================

/-- **C2.** In each orchestration function (with `regenerate=False`), an
`IOError` raised by its own cache-read call is caught and treated as "must
compute": the function still returns successfully — the condition is never
propagated to the caller — and its foreign-engine routine is invoked. -/
theorem C2_ioerror_is_cache_miss
    (up : UserParams) (cp : CosmoParams) (write : Bool)
    (eIC : UserParams → CosmoParams → ICData)
    (z : ℚ) (ib? : Option InitialConditions) (up0 : Option UserParams)
    (cp0 : Option CosmoParams) (readIC : ReadResult ICData)
    (ePF : ℚ → InitialConditions → PFData)
    (ap : AstroParams) (fo : FlagOptions) (z0 : Option ℚ)
    (pf? : Option PerturbedField) (readPF : ReadResult PFData)
    (eI eT : ℚ → PerturbedField → List ℚ) (dst : Bool)
    (hIC : readIC ≠ .otherError) (hPF : readPF ≠ .otherError)
    (hz : ¬(pf? = none ∧ z0 = none)) :
    (∃ t, initial_conditions up cp false write .ioError eIC = .ok t ∧
      t.engineInvoked = true) ∧
    (∃ t, perturb_field z ib? up0 cp0 false write readIC eIC .ioError ePF = .ok t ∧
      t.engineInvoked = true) ∧
    (∃ t, ionize_box ap fo z0 pf? ib? cp0 up0 false write readIC eIC readPF ePF
        .ioError eI eT dst = .ok t ∧ t.engineInvoked = true) := by
  obtain ⟨tic, htic, -⟩ := ic_run_ok (resolveParams ib? up0 cp0).1
    (resolveParams ib? up0 cp0).2 false write readIC eIC hIC
  refine ⟨⟨_, rfl, rfl⟩, ?_, ?_⟩
  · rcases ib? with - | ib
    · simp only [perturb_field, htic]
      exact ⟨_, rfl, rfl⟩
    · rcases hf : ib.filled
      · simp only [perturb_field, htic, hf, Bool.false_eq_true, if_false]
        exact ⟨_, rfl, rfl⟩
      · simp only [perturb_field, hf, if_true]
        exact ⟨_, rfl, rfl⟩
  · rcases pf? with - | p
    · rcases z0 with - | zz
      · exact absurd ⟨rfl, rfl⟩ hz
      · obtain ⟨t, ht, -⟩ := pf_run_ok zz ib? up0 cp0 false write readIC eIC readPF ePF hIC hPF
        simp only [ionize_box, ionize_core, ht]
        exact ⟨_, rfl, rfl⟩
    · rcases hf : p.filled
      · obtain ⟨t, ht, -⟩ := pf_run_ok p.redshift ib? up0 cp0 false write readIC eIC
          readPF ePF hIC hPF
        simp only [ionize_box, ionize_core, hf, Bool.false_eq_true, if_false, ht]
        exact ⟨_, rfl, rfl⟩
      · simp only [ionize_box, ionize_core, hf, if_true]
        exact ⟨_, rfl, rfl⟩

/-- Witness for C2: with concrete fixtures and an `IOError` from its own read,
`perturb_field` still returns successfully with its engine invoked. -/
theorem C2_ioerror_is_cache_miss_witness :
    (ReadResult.ok testICData ≠ ReadResult.otherError) ∧
    (∃ t, perturb_field 7 none none none false true (.ok testICData) testEngineIC
        .ioError testEnginePF = .ok t ∧ t.engineInvoked = true) :=
  ⟨by decide,
   (C2_ioerror_is_cache_miss testUserParams CosmoParams.default true testEngineIC
      7 none none none (.ok testICData) testEnginePF (AstroParams.default false)
      FlagOptions.default (some 7) none (.ok testPFData) testEngineIon testEngineTs false
      (by decide) (by decide) (by decide)).2.1⟩

-- ======================================================================================
-- CLAIM C8 — ionize_box ValueError condition and redshift precedence
-- ======================================================================================

/-- **C8.** `ionize_box` raises `ValueError` exactly when both
`perturbed_field` and `redshift` are `None`; and when a `perturbed_field` is
given, the redshift used for the resulting box is the field's own redshift,
whatever the `redshift` argument was. -/
theorem C8_ionize_valueerror_redshift
    (ap : AstroParams) (fo : FlagOptions) (z0 : Option ℚ)
    (pf? : Option PerturbedField) (ib? : Option InitialConditions)
    (cp0 : Option CosmoParams) (up0 : Option UserParams) (regen write : Bool)
    (readIC : ReadResult ICData) (eIC : UserParams → CosmoParams → ICData)
    (readPF : ReadResult PFData) (ePF : ℚ → InitialConditions → PFData)
    (readBox : ReadResult (List ℚ)) (eI eT : ℚ → PerturbedField → List ℚ)
    (dst : Bool) :
    ((ionize_box ap fo z0 pf? ib? cp0 up0 regen write readIC eIC readPF ePF
        readBox eI eT dst = .error .valueError) ↔ (pf? = none ∧ z0 = none)) ∧
    (∀ p r, pf? = some p →
      ionize_box ap fo z0 pf? ib? cp0 up0 regen write readIC eIC readPF ePF
        readBox eI eT dst = .ok r →
      r.redshiftUsed = p.redshift ∧ r.box.redshift = p.redshift) := by
  constructor
  · constructor
    · intro h
      rcases pf? with - | p
      · rcases z0 with - | zz
        · exact ⟨rfl, rfl⟩
        · simp only [ionize_box] at h
          exact absurd (ion_core_error _ _ _ _ _ _ _ _ _ _ _ _ _ _ _ _ _ _ h) (by decide)
      · simp only [ionize_box] at h
        exact absurd (ion_core_error _ _ _ _ _ _ _ _ _ _ _ _ _ _ _ _ _ _ h) (by decide)
    · rintro ⟨h1, h2⟩
      subst h1; subst h2; rfl
  · rintro p r rfl h
    simp only [ionize_box] at h
    exact ion_core_redshift _ _ _ _ _ _ _ _ _ _ _ _ _ _ _ _ _ _ h

/-- Witness for C8: with a concrete filled perturbed field at redshift 7 and a
`redshift` argument of 3, the resulting box is at redshift 7; and with both
arguments `None`, `ionize_box` raises `ValueError`. -/
theorem C8_ionize_valueerror_redshift_witness :
    (ionize_box (AstroParams.default false) FlagOptions.default none none none
        none none false true (.ok testICData) testEngineIC (.ok testPFData)
        testEnginePF (.ok [13]) testEngineIon testEngineTs false
      = .error .valueError) ∧
    (∃ r, ionize_box (AstroParams.default false) FlagOptions.default (some 3)
        (some testPerturbedField) none none none false true (.ok testICData)
        testEngineIC (.ok testPFData) testEnginePF (.ok [13]) testEngineIon
        testEngineTs false = .ok r ∧
      r.redshiftUsed = testPerturbedField.redshift) := by
  constructor
  · exact (C8_ionize_valueerror_redshift (AstroParams.default false) FlagOptions.default
      none none none none none false true (.ok testICData) testEngineIC
      (.ok testPFData) testEnginePF (.ok [13]) testEngineIon testEngineTs
      false).1.mpr ⟨rfl, rfl⟩
  · exact ⟨_, rfl,
      ((C8_ionize_valueerror_redshift (AstroParams.default false) FlagOptions.default
        (some 3) (some testPerturbedField) none none none false true (.ok testICData)
        testEngineIC (.ok testPFData) testEnginePF (.ok [13]) testEngineIon
        testEngineTs false).2 testPerturbedField _ rfl rfl).1⟩

-- ======================================================================================
-- CLAIM C5 — automatic pipeline feed-forward
-- ======================================================================================

/-- **C5.** The pipeline feeds forward automatically: `perturb_field` called
with `init_boxes` `None` or unfilled first calls `initial_conditions`,
obtaining filled initial conditions; `ionize_box` called with
`perturbed_field` `None` or unfilled first calls `perturb_field` at the
requested redshift (the `redshift` argument, or the field's redshift); and
whenever a stage's engine runs, the object it receives is the output object of
the previous stage's call. -/
theorem C5_pipeline_feed_forward
    (z : ℚ) (ib? : Option InitialConditions) (up0 : Option UserParams)
    (cp0 : Option CosmoParams) (regen write : Bool)
    (readIC : ReadResult ICData) (eIC : UserParams → CosmoParams → ICData)
    (readPF : ReadResult PFData) (ePF : ℚ → InitialConditions → PFData)
    (ap : AstroParams) (fo : FlagOptions) (z0 : Option ℚ)
    (pf? : Option PerturbedField) (readBox : ReadResult (List ℚ))
    (eI eT : ℚ → PerturbedField → List ℚ) (dst : Bool) :
    (∀ r, (ib? = none ∨ ∃ ib, ib? = some ib ∧ ib.filled = false) →
      perturb_field z ib? up0 cp0 regen write readIC eIC readPF ePF = .ok r →
      r.icCalled = true ∧
      ∃ t, initial_conditions (resolveParams ib? up0 cp0).1
          (resolveParams ib? up0 cp0).2 regen write readIC eIC = .ok t ∧
        t.box.filled = true ∧
        (r.engineInvoked = true → r.engineInput = some t.box)) ∧
    (∀ r zz, pf? = none → z0 = some zz →
      ionize_box ap fo z0 pf? ib? cp0 up0 regen write readIC eIC readPF ePF
        readBox eI eT dst = .ok r →
      r.pfCalled = true ∧
      ∃ t, perturb_field zz ib? up0 cp0 regen write readIC eIC readPF ePF = .ok t ∧
        t.fields.filled = true ∧
        (r.engineInvoked = true → r.engineInput = some t.fields)) ∧
    (∀ r p, pf? = some p → p.filled = false →
      ionize_box ap fo z0 pf? ib? cp0 up0 regen write readIC eIC readPF ePF
        readBox eI eT dst = .ok r →
      r.pfCalled = true ∧
      ∃ t, perturb_field p.redshift ib? up0 cp0 regen write readIC eIC readPF ePF
          = .ok t ∧
        t.fields.filled = true ∧
        (r.engineInvoked = true → r.engineInput = some t.fields)) := by
  refine ⟨?_, ?_, ?_⟩
  · rintro r hib h
    rcases hib with rfl | ⟨ib, rfl, hf⟩
    · rcases hic : initial_conditions (resolveParams none up0 cp0).1
        (resolveParams none up0 cp0).2 regen write readIC eIC with e' | tic
      · cases regen <;> cases readPF <;>
          simp only [perturb_field, hic] at h <;> cases h
      · have hfil := ic_run_filled _ _ _ _ _ _ _ hic
        cases regen <;> cases readPF <;>
          simp only [perturb_field, hic, PerturbedField.applyRead] at h <;>
          (try cases h) <;>
          exact ⟨rfl, tic, rfl, hfil, by intro hh; first | rfl | simp at hh⟩
    · rcases hic : initial_conditions (resolveParams (some ib) up0 cp0).1
        (resolveParams (some ib) up0 cp0).2 regen write readIC eIC with e' | tic
      · cases regen <;> cases readPF <;>
          simp only [perturb_field, hic, hf, Bool.false_eq_true, if_false] at h <;>
          cases h
      · have hfil := ic_run_filled _ _ _ _ _ _ _ hic
        cases regen <;> cases readPF <;>
          simp only [perturb_field, hic, hf, Bool.false_eq_true, if_false,
            PerturbedField.applyRead] at h <;>
          (try cases h) <;>
          exact ⟨rfl, tic, rfl, hfil, by intro hh; first | rfl | simp at hh⟩
  · rintro r zz rfl rfl h
    simp only [ionize_box] at h
    rcases hpf : perturb_field zz ib? up0 cp0 regen write readIC eIC readPF ePF
      with e' | t
    · cases regen <;> cases readBox <;>
        simp only [ionize_core, hpf] at h <;> cases h
    · have hfil := pf_run_filled _ _ _ _ _ _ _ _ _ _ _ hpf
      cases regen <;> cases readBox <;>
        simp only [ionize_core, hpf] at h <;> (try cases h) <;>
        exact ⟨rfl, t, rfl, hfil, by intro hh; first | rfl | simp at hh⟩
  · rintro r p rfl hf h
    simp only [ionize_box] at h
    rcases hpf : perturb_field p.redshift ib? up0 cp0 regen write readIC eIC readPF ePF
      with e' | t
    · cases regen <;> cases readBox <;>
        simp only [ionize_core, hf, Bool.false_eq_true, if_false, hpf] at h <;> cases h
    · have hfil := pf_run_filled _ _ _ _ _ _ _ _ _ _ _ hpf
      cases regen <;> cases readBox <;>
        simp only [ionize_core, hf, Bool.false_eq_true, if_false, hpf] at h <;>
        (try cases h) <;>
        exact ⟨rfl, t, rfl, hfil, by intro hh; first | rfl | simp at hh⟩

/-- Witness for C5: with `init_boxes = None` and concrete fixtures,
`perturb_field` reports that it invoked `initial_conditions`. -/
theorem C5_pipeline_feed_forward_witness :
    ((none : Option InitialConditions) = none ∨
      ∃ ib, (none : Option InitialConditions) = some ib ∧ ib.filled = false) ∧
    ∃ r, perturb_field 7 none none none false true (.ok testICData) testEngineIC
        (.ok testPFData) testEnginePF = .ok r ∧ r.icCalled = true :=
  ⟨Or.inl rfl,
   ⟨_, rfl,
    ((C5_pipeline_feed_forward 7 none none none false true (.ok testICData)
        testEngineIC (.ok testPFData) testEnginePF (AstroParams.default false)
        FlagOptions.default (some 7) none (.ok [13]) testEngineIon testEngineTs
        false).1 _ (Or.inl rfl) rfl).1⟩⟩
